import Mathlib

/-!
Shallow embedding of the bivt-backend circle/expenses core.

Sources embedded:
  - `src/models/plugin/expenses.js` (class `Expenses`): the access-layer
    queries for bill categories, bills and budgets.
  - `src/unnamed/part_000` (circle router): the `/create` quota gate and the
    `/byUser` not-found mapping.

The relational state is a `Database` of lists of rows; a parameterized SQL
query becomes a pure function over that state.  A query's resolved value is
an `Option` (null vs. an array / result descriptor), mirroring the JS
null-checks in each `.then` handler.
-/

/-- Row of `tb_circle_member` (joined against in `expenses.js`):
a membership of `userId` in `circleId`. -/
structure CircleMember where
  userId : Nat
  circleId : Nat
  isOwner : Bool
  joinedAt : Option Int
deriving DecidableEq

/-- Row of `tb_plugin_expenses` (columns as inserted by `Expenses.addBill`). -/
structure Bill where
  id : Nat
  circleId : Nat
  userId : Nat
  billName : String
  billAmount : Int
  billCategoryId : Nat
  billDate : Int
deriving DecidableEq

/-- Row of `tb_plugin_expenses_categories`. -/
structure BillCategory where
  id : Nat
  categoryName : String
deriving DecidableEq

/-- Row of `tb_plugin_expenses_budget` (columns as inserted by
`Expenses.addBudget`). -/
structure Budget where
  id : Nat
  circleId : Nat
  userId : Nat
  budgetName : String
  budgetAmount : Int
  budgetStartDate : Int
  budgetEndDate : Int
deriving DecidableEq

/-- Modelled from the spec: row of the circle table (`tb_circle` is not under
`src/`; spec section 3 gives a Circle as id, name, creator/owner user id). -/
structure CircleRecord where
  id : Nat
  name : String
  ownerId : Nat
deriving DecidableEq

/-- The relational state the embedded queries run against. -/
structure Database where
  tb_circle : List CircleRecord
  tb_circle_member : List CircleMember
  tb_plugin_expenses : List Bill
  tb_plugin_expenses_categories : List BillCategory
  tb_plugin_expenses_budget : List Budget
deriving DecidableEq

/-- Result row of the `getBills` SELECT: `PE.id, PE.billName, PE.billAmount,
PE.billCategoryId, EC.categoryNAme, PE.billDate`. -/
structure BillRow where
  id : Nat
  billName : String
  billAmount : Int
  billCategoryId : Nat
  categoryName : String
  billDate : Int
deriving DecidableEq

/-- Result row of the `getBudgets` SELECT: `PEB.id, PEB.budgetName,
PEB.budgetAmount, PEB.budgetStartDate, PEB.budgetEndDate`. -/
structure BudgetRow where
  id : Nat
  budgetName : String
  budgetAmount : Int
  budgetStartDate : Int
  budgetEndDate : Int
deriving DecidableEq

/-- `ORDER BY key DESC`: insert `x` in front of the first element whose key is
strictly smaller. -/
def insertDesc (key : α → Int) (x : α) : List α → List α
  | [] => [x]
  | y :: ys => if key y < key x then x :: y :: ys else y :: insertDesc key x ys

/-- `ORDER BY key DESC` over a whole result set. -/
def sortByDesc (key : α → Int) : List α → List α
  | [] => []
  | x :: xs => insertDesc key x (sortByDesc key xs)

/-- The output list is in descending key order (newest first). -/
def SortedDesc (key : α → Int) (l : List α) : Prop :=
  l.Pairwise (fun a b => key b ≤ key a)

/-- Result descriptor of an INSERT/DELETE statement (`insertId`,
`affectedRows`). -/
structure QueryResult where
  insertId : Nat
  affectedRows : Nat
deriving DecidableEq

/-- Auto-increment id the data store would assign to the next inserted bill. -/
def nextBillId (db : Database) : Nat :=
  (db.tb_plugin_expenses.map (fun b => b.id)).foldr max 0 + 1

/-- Auto-increment id the data store would assign to the next inserted
budget. -/
def nextBudgetId (db : Database) : Nat :=
  (db.tb_plugin_expenses_budget.map (fun b => b.id)).foldr max 0 + 1

namespace Expenses

/-- The `.then` handler of `getBillCategories`:
`if (categories != null && categories.length > 0) return map else return null`. -/
def categoriesThen (categories : Option (List BillCategory)) :
    Option (List BillCategory) :=
  match categories with
  | some l => if l.length > 0 then some (l.map (fun item => item)) else none
  | none => none

/-- `Expenses.getBillCategories`: SELECT all of
`tb_plugin_expenses_categories`, then the null/length guard. -/
def getBillCategories (db : Database) : Option (List BillCategory) :=
  categoriesThen (some db.tb_plugin_expenses_categories)

/-- The joined, filtered (unsorted) rows of the `getBills` SELECT:
`tb_plugin_expenses PE INNER JOIN tb_circle_member CM ON PE.circleId =
CM.circleId INNER JOIN tb_plugin_expenses_categories EC ON PE.billCategoryId
= EC.id WHERE CM.userId = ? AND CM.circleId = ?`. -/
def getBillsJoin (db : Database) (userId circleId : Nat) : List BillRow :=
  db.tb_plugin_expenses.flatMap (fun pe =>
    db.tb_circle_member.flatMap (fun cm =>
      db.tb_plugin_expenses_categories.flatMap (fun ec =>
        if pe.circleId = cm.circleId ∧ pe.billCategoryId = ec.id
            ∧ cm.userId = userId ∧ cm.circleId = circleId then
          [⟨pe.id, pe.billName, pe.billAmount, pe.billCategoryId,
            ec.categoryName, pe.billDate⟩]
        else [])))

/-- The array the `getBills` query resolves with: the join, `ORDER BY
PE.billDate DESC`. -/
def getBillsQuery (db : Database) (userId circleId : Nat) : List BillRow :=
  sortByDesc (fun r => r.billDate) (getBillsJoin db userId circleId)

/-- The `.then` handler of `getBills`:
`if (bills != null && bills.length >= 0) return map else return null`. -/
def billsThen (bills : Option (List BillRow)) : Option (List BillRow) :=
  match bills with
  | some l => if l.length ≥ 0 then some (l.map (fun item => item)) else none
  | none => none

/-- `Expenses.getBills userId circleId`. -/
def getBills (db : Database) (userId circleId : Nat) : Option (List BillRow) :=
  billsThen (some (getBillsQuery db userId circleId))

/-- The `.then` handler of `addBill` and `addBudget`:
`if (result != null) return parseInt(result.insertId) else return 0`. -/
def insertThen (result : Option QueryResult) : Nat :=
  match result with
  | some r => r.insertId
  | none => 0

/-- `Expenses.addBill circleId userId billName billAmount billCategoryId
billDate`: unconditional INSERT into `tb_plugin_expenses`; returns the new
state and the id handed back through `insertThen`. -/
def addBill (db : Database) (circleId userId : Nat) (billName : String)
    (billAmount : Int) (billCategoryId : Nat) (billDate : Int) :
    Database × Nat :=
  let newId := nextBillId db
  ({ db with tb_plugin_expenses := db.tb_plugin_expenses ++
      [⟨newId, circleId, userId, billName, billAmount, billCategoryId,
        billDate⟩] },
    insertThen (some ⟨newId, 1⟩))

/-- The `.then` handler of `removeBill` and `removeBudget`:
`if (result != null) return parseInt(result.affectedRows) else return 0`. -/
def deleteThen (result : Option QueryResult) : Nat :=
  match result with
  | some r => r.affectedRows
  | none => 0

/-- `Expenses.removeBill userId billId circleId`:
`DELETE from tb_plugin_expenses WHERE id = ? AND circleId = ?`; the `userId`
argument appears in the signature but not in the statement. -/
def removeBill (db : Database) (userId billId circleId : Nat) :
    Database × Nat :=
  ({ db with tb_plugin_expenses :=
        (db.tb_plugin_expenses.filter
          (fun b => !(b.id == billId && b.circleId == circleId))) },
    deleteThen (some ⟨0, db.tb_plugin_expenses.countP
      (fun b => b.id == billId && b.circleId == circleId)⟩))

/-- `Expenses.addBudget circleId userId budgetName budgetAmount
budgetStartDate budgetEndDate`: unconditional INSERT into
`tb_plugin_expenses_budget`. -/
def addBudget (db : Database) (circleId userId : Nat) (budgetName : String)
    (budgetAmount : Int) (budgetStartDate budgetEndDate : Int) :
    Database × Nat :=
  let newId := nextBudgetId db
  ({ db with tb_plugin_expenses_budget := db.tb_plugin_expenses_budget ++
      [⟨newId, circleId, userId, budgetName, budgetAmount, budgetStartDate,
        budgetEndDate⟩] },
    insertThen (some ⟨newId, 1⟩))

/-- The joined, filtered (unsorted) rows of the `getBudgets` SELECT:
`tb_plugin_expenses_budget PEB INNER JOIN tb_circle_member CM ON
PEB.circleId = CM.circleId WHERE CM.userId = ? AND CM.circleId = ?`. -/
def getBudgetsJoin (db : Database) (userId circleId : Nat) : List BudgetRow :=
  db.tb_plugin_expenses_budget.flatMap (fun peb =>
    db.tb_circle_member.flatMap (fun cm =>
      if peb.circleId = cm.circleId ∧ cm.userId = userId
          ∧ cm.circleId = circleId then
        [⟨peb.id, peb.budgetName, peb.budgetAmount, peb.budgetStartDate,
          peb.budgetEndDate⟩]
      else []))

/-- The array the `getBudgets` query resolves with: the join, `ORDER BY
PEB.budgetStartDate DESC`. -/
def getBudgetsQuery (db : Database) (userId circleId : Nat) : List BudgetRow :=
  sortByDesc (fun r => r.budgetStartDate) (getBudgetsJoin db userId circleId)

/-- The `.then` handler of `getBudgets`: same guard shape as `billsThen`. -/
def budgetsThen (budgets : Option (List BudgetRow)) :
    Option (List BudgetRow) :=
  match budgets with
  | some l => if l.length ≥ 0 then some (l.map (fun item => item)) else none
  | none => none

/-- `Expenses.getBudgets userId circleId`. -/
def getBudgets (db : Database) (userId circleId : Nat) :
    Option (List BudgetRow) :=
  budgetsThen (some (getBudgetsQuery db userId circleId))

/-- `Expenses.removeBudget userId budgetId circleId`:
`DELETE from tb_plugin_expenses_budget WHERE id = ? AND circleId = ?`;
`userId` is again unused in the statement. -/
def removeBudget (db : Database) (userId budgetId circleId : Nat) :
    Database × Nat :=
  ({ db with tb_plugin_expenses_budget :=
        (db.tb_plugin_expenses_budget.filter
          (fun b => !(b.id == budgetId && b.circleId == circleId))) },
    deleteThen (some ⟨0, db.tb_plugin_expenses_budget.countP
      (fun b => b.id == budgetId && b.circleId == circleId)⟩))

end Expenses

namespace CircleRoute

/-- Modelled from the spec: `CircleService.getNumberCirclesByOwner` (the
service class is not under `src/`): the count of circles currently owned by
`ownerId`. -/
def getNumberCirclesByOwner (db : Database) (ownerId : Nat) : Nat :=
  db.tb_circle.countP (fun c => c.ownerId == ownerId)

/-- Modelled from the spec: `CircleService.addNewCircle` (not under `src/`):
inserts a circle with its owner membership and returns the new circle id. -/
def addNewCircle (db : Database) (ownerId : Nat) (name : String) :
    Database × Nat :=
  let newId := (db.tb_circle.map (fun c => c.id)).foldr max 0 + 1
  ({ db with
      tb_circle := db.tb_circle ++ [⟨newId, name, ownerId⟩],
      tb_circle_member := db.tb_circle_member ++
        [⟨ownerId, newId, true, none⟩] },
    newId)

/-- The router's `/create` error message for the quota denial. -/
def freeAccountLimitMsg : String := "You reached the free account limit."

/-- Outcome of the `/create` handler, HTTP mechanics stripped: a 200 with the
new circle id, or a 422 carrying the quota message. -/
inductive CreateOutcome where
  | allowed (circleId : Nat)
  | denied (msg : String)
deriving DecidableEq

/-- The `/create` route body (`src/unnamed/part_000`): read the owned-circle
count and proceed only when `result < 2`, otherwise throw and answer 422 with
`freeAccountLimitMsg`. -/
def createCircle (db : Database) (ownerId : Nat) (name : String) :
    CreateOutcome :=
  let result := getNumberCirclesByOwner db ownerId
  if result < 2 then
    CreateOutcome.allowed (addNewCircle db ownerId name).2
  else
    CreateOutcome.denied freeAccountLimitMsg

/-- Result row of the `/byUser` listing: circle id and name with the
caller's membership flags. -/
structure CircleByUserRow where
  id : Nat
  name : String
  isOwner : Bool
  joinedAt : Option Int
deriving DecidableEq

/-- Modelled from the spec: the rows `CircleService.GetCircleByUser` selects —
a circle is visible iff a `tb_circle_member` row exists for
`(userId, circleId)`, regardless of owner flag. -/
def circlesByUserJoin (db : Database) (userId : Nat) : List CircleByUserRow :=
  db.tb_circle.flatMap (fun c =>
    db.tb_circle_member.flatMap (fun cm =>
      if c.id = cm.circleId ∧ cm.userId = userId then
        [⟨c.id, c.name, cm.isOwner, cm.joinedAt⟩]
      else []))

/-- Modelled from the spec: `CircleService.GetCircleByUser` (not under
`src/`): the visible circles, or null when the user belongs to none. -/
def GetCircleByUser (db : Database) (userId : Nat) :
    Option (List CircleByUserRow) :=
  let rows := circlesByUserJoin db userId
  if rows.length > 0 then some rows else none

/-- Outcome of the `/byUser` handler, HTTP mechanics stripped: a 200 carrying
the circle list, or the `formatError404Json` not-found response. -/
inductive ByUserOutcome where
  | ok (circles : List CircleByUserRow)
  | notFound
deriving DecidableEq

/-- The `/byUser` route body (`src/unnamed/part_000`): `GetCircleByUser`,
then `result === null` maps to the 404 response, anything else to a 200. -/
def byUser (db : Database) (userId : Nat) : ByUserOutcome :=
  match GetCircleByUser db userId with
  | none => ByUserOutcome.notFound
  | some result => ByUserOutcome.ok result

end CircleRoute

/-! Helper lemmas about the embedded ORDER BY and the join filters. -/

theorem mem_insertDesc (key : α → Int) (x : α) (l : List α) (y : α) :
    y ∈ insertDesc key x l ↔ y = x ∨ y ∈ l := by
  induction l with
  | nil => simp [insertDesc]
  | cons z zs ih =>
    simp only [insertDesc]
    split
    · simp [List.mem_cons]
    · simp only [List.mem_cons, ih]
      tauto

theorem mem_sortByDesc (key : α → Int) (l : List α) (y : α) :
    y ∈ sortByDesc key l ↔ y ∈ l := by
  induction l with
  | nil => simp [sortByDesc]
  | cons x xs ih => simp [sortByDesc, mem_insertDesc, ih]

theorem sortedDesc_insertDesc (key : α → Int) (x : α) (l : List α)
    (h : SortedDesc key l) : SortedDesc key (insertDesc key x l) := by
  unfold SortedDesc at h ⊢
  induction l with
  | nil => simp [insertDesc]
  | cons y ys ih =>
    rw [List.pairwise_cons] at h
    obtain ⟨hy, hys⟩ := h
    by_cases hlt : key y < key x
    · simp only [insertDesc, if_pos hlt]
      refine List.pairwise_cons.mpr ⟨?_, List.pairwise_cons.mpr ⟨hy, hys⟩⟩
      intro b hb
      rcases List.mem_cons.mp hb with rfl | hb'
      · exact le_of_lt hlt
      · exact le_trans (hy b hb') (le_of_lt hlt)
    · simp only [insertDesc, if_neg hlt]
      refine List.pairwise_cons.mpr ⟨?_, ih hys⟩
      intro b hb
      rcases (mem_insertDesc key x ys b).mp hb with rfl | hb'
      · exact le_of_not_lt hlt
      · exact hy b hb'

theorem sortedDesc_sortByDesc (key : α → Int) (l : List α) :
    SortedDesc key (sortByDesc key l) := by
  induction l with
  | nil => exact List.Pairwise.nil
  | cons x xs ih =>
    simp only [sortByDesc]
    exact sortedDesc_insertDesc key x _ ih

theorem mem_ite_singleton {p : Prop} [Decidable p] (a b : α) :
    a ∈ (if p then [b] else ([] : List α)) ↔ p ∧ a = b := by
  split <;> simp_all

theorem mem_getBillsJoin (db : Database) (userId circleId : Nat)
    (r : BillRow) :
    r ∈ Expenses.getBillsJoin db userId circleId ↔
      ∃ pe, pe ∈ db.tb_plugin_expenses ∧ ∃ cm, cm ∈ db.tb_circle_member
        ∧ ∃ ec, ec ∈ db.tb_plugin_expenses_categories
        ∧ (pe.circleId = cm.circleId ∧ pe.billCategoryId = ec.id
            ∧ cm.userId = userId ∧ cm.circleId = circleId)
        ∧ r = ⟨pe.id, pe.billName, pe.billAmount, pe.billCategoryId,
               ec.categoryName, pe.billDate⟩ := by
  simp only [Expenses.getBillsJoin, List.mem_flatMap, mem_ite_singleton]

theorem mem_getBudgetsJoin (db : Database) (userId circleId : Nat)
    (r : BudgetRow) :
    r ∈ Expenses.getBudgetsJoin db userId circleId ↔
      ∃ peb, peb ∈ db.tb_plugin_expenses_budget
        ∧ ∃ cm, cm ∈ db.tb_circle_member
        ∧ (peb.circleId = cm.circleId ∧ cm.userId = userId
            ∧ cm.circleId = circleId)
        ∧ r = ⟨peb.id, peb.budgetName, peb.budgetAmount, peb.budgetStartDate,
               peb.budgetEndDate⟩ := by
  simp only [Expenses.getBudgetsJoin, List.mem_flatMap, mem_ite_singleton]

/-! The claims. -/

/-- C4: `removeBill` and `removeBudget` perform the same deletion and return
the same count for any two caller user ids: the `userId` argument never
reaches the DELETE statement, so removal is not conditioned on the caller's
membership in the circle. -/
theorem remove_ignores_caller (db : Database) (u1 u2 billId circleId : Nat) :
    Expenses.removeBill db u1 billId circleId
        = Expenses.removeBill db u2 billId circleId
    ∧ Expenses.removeBudget db u1 billId circleId
        = Expenses.removeBudget db u2 billId circleId :=
  ⟨rfl, rfl⟩

/-- C7: for every `(userId, circleId)` the `getBills` result is sorted by
`billDate` descending (newest first) and the `getBudgets` result is sorted by
`budgetStartDate` descending. -/
theorem listBills_listBudgets_sorted (db : Database) (U C : Nat) :
    ∃ bl, Expenses.getBills db U C = some bl
      ∧ SortedDesc (fun r => r.billDate) bl
      ∧ ∃ gl, Expenses.getBudgets db U C = some gl
        ∧ SortedDesc (fun r => r.budgetStartDate) gl := by
  refine ⟨Expenses.getBillsQuery db U C, ?_, ?_,
    Expenses.getBudgetsQuery db U C, ?_, ?_⟩
  · simp [Expenses.getBills, Expenses.billsThen]
  · exact sortedDesc_sortByDesc _ _
  · simp [Expenses.getBudgets, Expenses.budgetsThen]
  · exact sortedDesc_sortByDesc _ _

/-- C8: `addBill` and `addBudget` insert unconditionally (no business
validation: the new row is always appended) and hand back the descriptor's
`insertId`; when the insert resolves with a null descriptor the handler
returns the sentinel 0. -/
theorem add_insert_and_sentinel (db : Database) (c u : Nat) (nm : String)
    (amt : Int) (cat : Nat) (d1 d2 : Int) :
    (Expenses.addBill db c u nm amt cat d1).1.tb_plugin_expenses
        = db.tb_plugin_expenses ++ [⟨nextBillId db, c, u, nm, amt, cat, d1⟩]
    ∧ (Expenses.addBill db c u nm amt cat d1).2
        = Expenses.insertThen (some ⟨nextBillId db, 1⟩)
    ∧ (Expenses.addBudget db c u nm amt d1 d2).1.tb_plugin_expenses_budget
        = db.tb_plugin_expenses_budget
          ++ [⟨nextBudgetId db, c, u, nm, amt, d1, d2⟩]
    ∧ (Expenses.addBudget db c u nm amt d1 d2).2
        = Expenses.insertThen (some ⟨nextBudgetId db, 1⟩)
    ∧ Expenses.insertThen (some ⟨nextBillId db, 1⟩) = nextBillId db
    ∧ Expenses.insertThen none = 0 :=
  ⟨rfl, rfl, rfl, rfl, rfl, rfl⟩

/-- C9: whenever the underlying query yields an array — the empty array
included — the `getBills`/`getBudgets` guard `bills != null && bills.length
>= 0` holds, so the null branch is unreachable and the functions always
return a (possibly empty) list; `categoriesThen`, whose guard is
`length > 0`, maps the empty array to null instead. -/
theorem bills_budgets_never_null (db : Database) (U C : Nat) :
    (∀ rows : List BillRow, Expenses.billsThen (some rows) = some rows)
    ∧ (∀ rows : List BudgetRow, Expenses.budgetsThen (some rows) = some rows)
    ∧ (∃ l, Expenses.getBills db U C = some l)
    ∧ (∃ l, Expenses.getBudgets db U C = some l)
    ∧ Expenses.categoriesThen (some []) = none := by
  refine ⟨?_, ?_, ⟨Expenses.getBillsQuery db U C, ?_⟩,
    ⟨Expenses.getBudgetsQuery db U C, ?_⟩, rfl⟩
  · intro rows; simp [Expenses.billsThen]
  · intro rows; simp [Expenses.budgetsThen]
  · simp [Expenses.getBills, Expenses.billsThen]
  · simp [Expenses.getBudgets, Expenses.budgetsThen]

/-- C10: `getBillCategories` returns the full category list when at least one
category exists and null (not the empty list) when the table is empty. -/
theorem getBillCategories_full_or_null (db : Database) :
    (Expenses.getBillCategories db = some db.tb_plugin_expenses_categories
        ↔ db.tb_plugin_expenses_categories ≠ [])
    ∧ (Expenses.getBillCategories db = none
        ↔ db.tb_plugin_expenses_categories = []) := by
  rcases hl : db.tb_plugin_expenses_categories with _ | ⟨c, cs⟩
  · simp [Expenses.getBillCategories, Expenses.categoriesThen, hl]
  · simp [Expenses.getBillCategories, Expenses.categoriesThen, hl]

/-- C1: without a `tb_circle_member` row for `(U, C)` the membership join in
the read query itself filters everything out: `getBills` and `getBudgets`
both return the empty list (and so never another circle's rows). -/
theorem getBills_getBudgets_empty_without_membership (db : Database)
    (U C : Nat)
    (h : ∀ cm ∈ db.tb_circle_member, ¬(cm.userId = U ∧ cm.circleId = C)) :
    Expenses.getBills db U C = some []
    ∧ Expenses.getBudgets db U C = some [] := by
  have hb : Expenses.getBillsJoin db U C = [] := by
    rw [List.eq_nil_iff_forall_not_mem]
    intro r hr
    rw [mem_getBillsJoin] at hr
    obtain ⟨pe, hpe, cm, hcm, ec, hec, ⟨h1, h2, hU, hC⟩, hre⟩ := hr
    exact h cm hcm ⟨hU, hC⟩
  have hg : Expenses.getBudgetsJoin db U C = [] := by
    rw [List.eq_nil_iff_forall_not_mem]
    intro r hr
    rw [mem_getBudgetsJoin] at hr
    obtain ⟨peb, hpeb, cm, hcm, ⟨h1, hU, hC⟩, hre⟩ := hr
    exact h cm hcm ⟨hU, hC⟩
  constructor
  · simp [Expenses.getBills, Expenses.getBillsQuery, hb, sortByDesc,
      Expenses.billsThen]
  · simp [Expenses.getBudgets, Expenses.getBudgetsQuery, hg, sortByDesc,
      Expenses.budgetsThen]

/-- Concrete state for the C1 witness: bills, budgets and a membership all
exist in circle 1, but none of the memberships is user 7's. -/
def dbC1 : Database :=
  ⟨[], [⟨9, 1, true, none⟩], [⟨1, 1, 9, "rent", 100, 5, 20⟩],
    [⟨5, "home"⟩], [⟨1, 1, 9, "trip", 50, 10, 30⟩]⟩

/-- C1 witness: user 7 has no membership in circle 1, so both listings are
empty even though circle 1 has a bill and a budget. -/
theorem getBills_getBudgets_empty_witness :
    Expenses.getBills dbC1 7 1 = some []
    ∧ Expenses.getBudgets dbC1 7 1 = some [] :=
  getBills_getBudgets_empty_without_membership dbC1 7 1 (by decide)

/-- C2: the `/create` route allows circle creation iff the owned-circle count
is strictly below 2, and otherwise answers with exactly the quota-exceeded
message. -/
theorem createCircle_quota (db : Database) (ownerId : Nat) (name : String) :
    ((∃ cid, CircleRoute.createCircle db ownerId name
        = CircleRoute.CreateOutcome.allowed cid)
      ↔ CircleRoute.getNumberCirclesByOwner db ownerId < 2)
    ∧ (CircleRoute.createCircle db ownerId name
        = CircleRoute.CreateOutcome.denied CircleRoute.freeAccountLimitMsg
      ↔ 2 ≤ CircleRoute.getNumberCirclesByOwner db ownerId) := by
  by_cases h : CircleRoute.getNumberCirclesByOwner db ownerId < 2
  · constructor
    · simp [CircleRoute.createCircle, h]
    · simp only [CircleRoute.createCircle, if_pos h]
      constructor
      · intro hc; exact absurd hc (by simp)
      · intro hc; omega
  · constructor
    · simp only [CircleRoute.createCircle, if_neg h]
      constructor
      · rintro ⟨cid, hc⟩; exact absurd hc (by simp)
      · intro hc; omega
    · simp only [CircleRoute.createCircle, if_neg h]
      constructor
      · intro _; omega
      · intro _; trivial

/-- C3: the DELETE matches both the resource id and the circle id in one
statement, so when no row of the table carries both, nothing is deleted and
the rows-removed count is 0 — for bills and budgets alike. -/
theorem remove_mismatch_removes_nothing (db : Database)
    (userId billId circleId : Nat)
    (hb : ∀ b ∈ db.tb_plugin_expenses, b.id = billId → b.circleId ≠ circleId)
    (hg : ∀ g ∈ db.tb_plugin_expenses_budget,
      g.id = billId → g.circleId ≠ circleId) :
    Expenses.removeBill db userId billId circleId = (db, 0)
    ∧ Expenses.removeBudget db userId billId circleId = (db, 0) := by
  have hb' : ∀ b ∈ db.tb_plugin_expenses,
      (b.id == billId && b.circleId == circleId) = false := by
    intro b hbm
    by_cases hid : b.id = billId
    · simp [hid, hb b hbm hid]
    · simp [hid]
  have hg' : ∀ g ∈ db.tb_plugin_expenses_budget,
      (g.id == billId && g.circleId == circleId) = false := by
    intro g hgm
    by_cases hid : g.id = billId
    · simp [hid, hg g hgm hid]
    · simp [hid]
  constructor
  · unfold Expenses.removeBill
    rw [List.filter_eq_self.mpr (by intro b hbm; simp [hb' b hbm]),
      List.countP_eq_zero.mpr (by intro b hbm; simp [hb' b hbm])]
    rfl
  · unfold Expenses.removeBudget
    rw [List.filter_eq_self.mpr (by intro g hgm; simp [hg' g hgm]),
      List.countP_eq_zero.mpr (by intro g hgm; simp [hg' g hgm])]
    rfl

/-- Concrete state for the C3 witness: bill 1 and budget 1 exist, but in
circle 1, not in circle 2. -/
def dbC3 : Database :=
  ⟨[], [], [⟨1, 1, 9, "rent", 100, 5, 20⟩], [],
    [⟨1, 1, 9, "trip", 50, 10, 30⟩]⟩

/-- C3 witness: removing bill/budget id 1 with the mismatched circle id 2
leaves the state unchanged and reports 0 rows removed. -/
theorem remove_mismatch_witness :
    Expenses.removeBill dbC3 9 1 2 = (dbC3, 0)
    ∧ Expenses.removeBudget dbC3 9 1 2 = (dbC3, 0) :=
  remove_mismatch_removes_nothing dbC3 9 1 2 (by decide) (by decide)

/-- C5: a user with zero `tb_circle_member` rows gets the distinct not-found
outcome from `/byUser` (`GetCircleByUser` resolves null, the route maps null
to the 404 response), never an empty-list success. -/
theorem byUser_notFound_without_membership (db : Database) (U : Nat)
    (h : ∀ cm ∈ db.tb_circle_member, cm.userId ≠ U) :
    CircleRoute.byUser db U = CircleRoute.ByUserOutcome.notFound := by
  have hj : CircleRoute.circlesByUserJoin db U = [] := by
    rw [List.eq_nil_iff_forall_not_mem]
    intro r hr
    simp only [CircleRoute.circlesByUserJoin, List.mem_flatMap,
      mem_ite_singleton] at hr
    obtain ⟨c, hc, cm, hcm, ⟨hcid, hus⟩, hre⟩ := hr
    exact h cm hcm hus
  simp [CircleRoute.byUser, CircleRoute.GetCircleByUser, hj]

/-- Concrete state for the C5 witness: one circle with one member, user 9;
user 7 belongs to nothing. -/
def dbC5 : Database :=
  ⟨[⟨1, "Team A", 9⟩], [⟨9, 1, true, none⟩], [], [], []⟩

/-- C5 witness: user 7 has no membership, and `/byUser` answers not-found. -/
theorem byUser_notFound_witness :
    CircleRoute.byUser dbC5 7 = CircleRoute.ByUserOutcome.notFound :=
  byUser_notFound_without_membership dbC5 7 (by decide)

/-- C6: for a member `(U, C)` (and a bill category that exists, as the data
store's foreign key guarantees), `addBill` followed by `getBills` for the
same user and circle returns a list that contains the newly added bill and
is ordered with the most recent `billDate` first. -/
theorem addBill_then_listBills (db : Database) (U C : Nat) (nm : String)
    (amt : Int) (cat : Nat) (dt : Int) (cm : CircleMember)
    (hcm : cm ∈ db.tb_circle_member) (hcmU : cm.userId = U)
    (hcmC : cm.circleId = C) (ec : BillCategory)
    (hec : ec ∈ db.tb_plugin_expenses_categories) (hecId : ec.id = cat) :
    ∃ l, Expenses.getBills (Expenses.addBill db C U nm amt cat dt).1 U C
        = some l
      ∧ (⟨nextBillId db, nm, amt, cat, ec.categoryName, dt⟩ : BillRow) ∈ l
      ∧ SortedDesc (fun r => r.billDate) l := by
  refine ⟨Expenses.getBillsQuery (Expenses.addBill db C U nm amt cat dt).1 U C,
    ?_, ?_, sortedDesc_sortByDesc _ _⟩
  · simp [Expenses.getBills, Expenses.billsThen]
  · unfold Expenses.getBillsQuery
    rw [mem_sortByDesc, mem_getBillsJoin]
    refine ⟨⟨nextBillId db, C, U, nm, amt, cat, dt⟩, ?_, cm, ?_, ec, ?_, ?_,
      rfl⟩
    · simp [Expenses.addBill]
    · simpa [Expenses.addBill] using hcm
    · simpa [Expenses.addBill] using hec
    · exact ⟨hcmC.symm, hecId.symm, hcmU, hcmC⟩

/-- Concrete state for the C6 witness: user 7 is a member of circle 3 and
category 5 exists; no bills yet. -/
def dbC6 : Database :=
  ⟨[], [⟨7, 3, true, none⟩], [], [⟨5, "food"⟩], []⟩

/-- C6 witness: adding a bill for (circle 3, user 7) and listing bills for
the same pair yields a sorted list containing the new bill. -/
theorem addBill_then_listBills_witness :
    ∃ l, Expenses.getBills (Expenses.addBill dbC6 3 7 "rent" 100 5 20).1 7 3
        = some l
      ∧ (⟨1, "rent", 100, 5, "food", 20⟩ : BillRow) ∈ l
      ∧ SortedDesc (fun r => r.billDate) l :=
  addBill_then_listBills dbC6 7 3 "rent" 100 5 20 ⟨7, 3, true, none⟩
    (by decide) rfl rfl ⟨5, "food"⟩ (by decide) rfl
